import Mathlib

/-
  Shallow embedding of the oracle_chat application (src/app.py).

  The application is a Streamlit single-page chat UI over a loaded document.
  Pure string manipulation (fragment joining, prompt construction) is embedded
  directly; the external libraries (web fetcher, YouTube transcript loader,
  CSV/PDF/text parsers, chat clients) are modelled as oracle functions bundled
  in an environment record, and Streamlit session state is modelled as an
  explicit record threaded through the handlers.
-/

namespace OracleChat

/-- One document returned by an external langchain loader; only its
text payload is relevant to the application. -/
structure Document where
  page_content : String
deriving DecidableEq

/-- Bytes of an uploaded file, modelled abstractly. -/
abbrev Bytes := List Nat

/-- The filesystem fragment visible to the application: named temp files and
their contents.  NamedTemporaryFile with delete disabled appends here and
nothing ever removes an entry. -/
abbrev FS := List (String × Bytes)

/-- Fresh name chosen by tempfile.NamedTemporaryFile, modelled as a counter
over the current filesystem plus the requested suffix. -/
def freshTempName (fs : FS) (suffix : String) : String :=
  "tmp" ++ toString fs.length ++ suffix

/-- Configuration with which src/app.py constructs the external YoutubeLoader:
YoutubeLoader(video_id, add_video_info=False, language=[pt]). -/
structure YoutubeLoaderCfg where
  video_id : String
  add_video_info : Bool
  language : List String
deriving DecidableEq

/-- External collaborators of the application, modelled as oracles.
Each failure (network error, missing transcript, unparseable file) is a none
result, standing for the uncaught exception the real library raises. -/
structure Extractors where
  webLoad : String → Option (List Document)
  transcripts : String → String → Option (List Document)
  csvLoad : FS → String → Option (List Document)
  pdfLoad : FS → String → Option (List Document)
  txtLoad : FS → String → Option (List Document)

/-- Semantics of the external YoutubeLoader.load(): try the configured
languages in order, returning the first available transcript. -/
def youtubeLoaderLoad (tr : String → String → Option (List Document))
    (cfg : YoutubeLoaderCfg) : Option (List Document) :=
  cfg.language.findSome? (fun l => tr cfg.video_id l)

/-- The join applied by every loader in src/app.py:
two-newline-join of the page contents of the loaded documents. -/
def joinDocs (docs : List Document) : String :=
  String.intercalate "\n\n" (docs.map Document.page_content)

/-- load_website from src/app.py: WebBaseLoader(url).load() joined. -/
def load_website (ex : Extractors) (url : String) : Option String :=
  (ex.webLoad url).map joinDocs

/-- The YoutubeLoader configuration built by load_youtube in src/app.py. -/
def load_youtube_cfg (video_id : String) : YoutubeLoaderCfg :=
  { video_id := video_id, add_video_info := false, language := ["pt"] }

/-- load_youtube from src/app.py: YoutubeLoader(video_id,
add_video_info=False, language=[pt]).load() joined. -/
def load_youtube (ex : Extractors) (video_id : String) : Option String :=
  (youtubeLoaderLoad ex.transcripts (load_youtube_cfg video_id)).map joinDocs

/-- load_csv from src/app.py: CSVLoader(file_path).load() joined. -/
def load_csv (ex : Extractors) (fs : FS) (file_path : String) : Option String :=
  (ex.csvLoad fs file_path).map joinDocs

/-- load_pdf from src/app.py: PyPDFLoader(file_path).load() joined. -/
def load_pdf (ex : Extractors) (fs : FS) (file_path : String) : Option String :=
  (ex.pdfLoad fs file_path).map joinDocs

/-- load_txt from src/app.py: TextLoader(file_path).load() joined. -/
def load_txt (ex : Extractors) (fs : FS) (file_path : String) : Option String :=
  (ex.txtLoad fs file_path).map joinDocs

/-- The file argument handed to load_files: a URL string for Website and
Youtube, raw uploaded bytes for Pdf, Csv and Txt. -/
inductive FileInput where
  | url (s : String)
  | upload (content : Bytes)
deriving DecidableEq

/-- How a load_files call can fail, mirroring the Python exceptions:
unboundLocal is the UnboundLocalError raised at the final return when no
branch assigned the document variable; attributeError is the error raised
inside a branch when the file argument has the wrong shape for that branch;
loaderFailure is an exception propagating out of an external loader. -/
inductive LoadErr where
  | unboundLocal
  | attributeError
  | loaderFailure
deriving DecidableEq

/-- VALID_FILE_TYPES from src/app.py. -/
def VALID_FILE_TYPES : List String :=
  ["Website", "Youtube", "Pdf", "Csv", "Txt"]

/-- Runs one byte-based branch of load_files: write the uploaded bytes to a
fresh temp file (NamedTemporaryFile with delete disabled, so the entry stays
in the filesystem) and hand the temp name to the given path-based loader. -/
def loadViaTempFile (suffix : String) (loader : FS → String → Option String)
    (content : Bytes) (fs : FS) : Except LoadErr String × FS :=
  let temp_name := freshTempName fs suffix
  let fs' := fs ++ [(temp_name, content)]
  match loader fs' temp_name with
  | some document => (Except.ok document, fs')
  | none => (Except.error LoadErr.loaderFailure, fs')

/-- load_files from src/app.py: dispatch on the file_type tag.  Website and
Youtube pass the URL straight to their loader; Pdf, Csv and Txt first persist
the uploaded bytes to a temp file.  A tag matched by no branch leaves the
document variable unassigned and the final return raises UnboundLocalError. -/
def load_files (ex : Extractors) (file_type : String) (file : FileInput)
    (fs : FS) : Except LoadErr String × FS :=
  if file_type = "Website" then
    match file with
    | FileInput.url u =>
      match load_website ex u with
      | some document => (Except.ok document, fs)
      | none => (Except.error LoadErr.loaderFailure, fs)
    | FileInput.upload _ => (Except.error LoadErr.attributeError, fs)
  else if file_type = "Youtube" then
    match file with
    | FileInput.url u =>
      match load_youtube ex u with
      | some document => (Except.ok document, fs)
      | none => (Except.error LoadErr.loaderFailure, fs)
    | FileInput.upload _ => (Except.error LoadErr.attributeError, fs)
  else if file_type = "Pdf" then
    match file with
    | FileInput.upload content => loadViaTempFile ".pdf" (load_pdf ex) content fs
    | FileInput.url _ => (Except.error LoadErr.attributeError, fs)
  else if file_type = "Csv" then
    match file with
    | FileInput.upload content => loadViaTempFile ".csv" (load_csv ex) content fs
    | FileInput.url _ => (Except.error LoadErr.attributeError, fs)
  else if file_type = "Txt" then
    match file with
    | FileInput.upload content => loadViaTempFile ".txt" (load_txt ex) content fs
    | FileInput.url _ => (Except.error LoadErr.attributeError, fs)
  else
    (Except.error LoadErr.unboundLocal, fs)

/-- The join described by the spec, written exactly as its formula:
F1 with separator-fragment pairs appended, no leading or trailing
separator. -/
def specJoin : List String → String
  | [] => ""
  | [f] => f
  | f :: rest => f ++ "\n\n" ++ specJoin rest

/-! Prompt construction: the system message built by load_model in
src/app.py is a Python format call over a fixed triple-quoted template. -/

/-- Substitution core of Python str.format restricted to positional empty
braces: each brace pair consumes the next argument; other characters are
literal.  A brace pair with no argument left cannot occur for the fixed
template used here and is kept literally. -/
def formatChars : List Char → List String → List Char
  | [], _ => []
  | [c], _ => [c]
  | a :: b :: rest, args =>
    if a = '\x7b' && b = '\x7d' then
      match args with
      | arg :: args' => arg.data ++ formatChars rest args'
      | [] => a :: b :: formatChars rest []
    else
      a :: formatChars (b :: rest) args

/-- Python str.format with positional empty-brace placeholders. -/
def pyFormat (tpl : String) (args : List String) : String :=
  String.mk (formatChars tpl.data args)

/-- The fixed triple-quoted system message template of load_model in
src/app.py, with its two positional format holes. -/
def sysTemplate : String :=
  "You are a friendly assistant named Oracle.\n    You have access to the following information from a document of type \x7b\x7d: \n\n    ####\n    \x7b\x7d\n    ####\n\n    Use the provided information as a basis for your responses.\n\n    Whenever you encounter $ in your output, replace it with S.\n\n    If the document contains something like \"Just a moment...Enable JavaScript and cookies to continue\"\n    suggest the user reload the Oracle!"

/-- Template text before the first hole. -/
def sysPre : String :=
  "You are a friendly assistant named Oracle.\n    You have access to the following information from a document of type "

/-- Template text between the two holes. -/
def sysMid : String :=
  ": \n\n    ####\n    "

/-- Template text after the second hole. -/
def sysPost : String :=
  "\n    ####\n\n    Use the provided information as a basis for your responses.\n\n    Whenever you encounter $ in your output, replace it with S.\n\n    If the document contains something like \"Just a moment...Enable JavaScript and cookies to continue\"\n    suggest the user reload the Oracle!"

/-- The currency-substitution directive contained in the template. -/
def dollarDirective : String :=
  "Whenever you encounter $ in your output, replace it with S."

/-- The bot-challenge directive contained in the template. -/
def jsDirective : String :=
  "If the document contains something like \"Just a moment...Enable JavaScript and cookies to continue\"\n    suggest the user reload the Oracle!"

/-- The system message of load_model: the template formatted with the
document type and the document text. -/
def systemMessage (file_type document : String) : String :=
  pyFormat sysTemplate [file_type, document]

/-- The constructors registered in MODEL_CONFIG in src/app.py. -/
inductive ChatClientKind where
  | groq
  | openai
deriving DecidableEq

/-- Per-provider entry of MODEL_CONFIG: selectable models and the client
constructor. -/
structure ProviderCfg where
  models : List String
  chat : ChatClientKind
deriving DecidableEq

/-- MODEL_CONFIG from src/app.py as a partial lookup: an unknown provider
key raises KeyError, modelled as none. -/
def MODEL_CONFIG (provider : String) : Option ProviderCfg :=
  if provider = "Groq" then
    some { models := ["llama-3.1-70b-versatile", "gemma2-9b-it", "mixtral-8x7b-32768"],
           chat := ChatClientKind.groq }
  else if provider = "OpenAI" then
    some { models := ["gpt-4o-mini", "gpt-4o", "o1-preview", "o1-mini"],
           chat := ChatClientKind.openai }
  else
    none

/-- A constructed chat client: MODEL_CONFIG[provider][chat-key] applied to
the selected model identifier and the supplied credential. -/
structure ChatClient where
  kind : ChatClientKind
  model : String
  api_key : String
deriving DecidableEq

/-- A chain: the prompt template (role-tagged message list, in order) piped
into the chat client. -/
structure Chain where
  template : List (String × String)
  chat : ChatClient
deriving DecidableEq

/-- The chain built by load_model from a document: system message, chat
history placeholder, user input placeholder, bound to the client. -/
def buildChain (kind : ChatClientKind) (model api_key file_type document : String) : Chain :=
  { template := [("system", systemMessage file_type document),
                 ("placeholder", "\x7bchat_history\x7d"),
                 ("user", "\x7binput\x7d")],
    chat := { kind := kind, model := model, api_key := api_key } }

/-! Session state and the interaction handlers. -/

/-- Role tag of a buffered message, as used by the langchain buffer memory. -/
inductive Role where
  | human
  | ai
deriving DecidableEq

/-- One message of the conversation buffer. -/
structure Msg where
  type : Role
  content : String
deriving DecidableEq

/-- The conversation buffer: buffer_as_messages of a
ConversationBufferMemory, chronological order. -/
abbrev Buffer := List Msg

/-- MEMORY from src/app.py: a fresh ConversationBufferMemory, whose buffer
is empty.  The module-level binding is re-created empty on every Streamlit
script rerun. -/
def MEMORY : Buffer := []

/-- Streamlit session state as used by the application: the chain key and
the memory key, each possibly absent. -/
structure SessionState where
  chain : Option Chain
  memory : Option Buffer
deriving DecidableEq

/-- The buffer chat_page works with:
st.session_state.get(memory-key, MEMORY). -/
def bufferOf (s : SessionState) : Buffer :=
  s.memory.getD MEMORY

/-- load_model from src/app.py: load the document, build the system message
and prompt template, construct the chat client from MODEL_CONFIG, pipe
template into client and store the chain in session state.  A load_files
exception or an unknown provider key propagates, modelled as none. -/
def load_model (ex : Extractors) (provider model api_key file_type : String)
    (file : FileInput) (fs : FS) (s : SessionState) :
    Option (SessionState × FS) :=
  match load_files ex file_type file fs with
  | (Except.error _, _) => none
  | (Except.ok document, fs') =>
    match MODEL_CONFIG provider with
    | none => none
    | some cfg =>
      let chain := buildChain cfg.chat model api_key file_type document
      some ({ s with chain := some chain }, fs')

/-- Streaming oracle: the chunk sequence chain.stream yields for a given
chain, user input and chat history. -/
structure StreamOracle where
  chunks : Chain → String → Buffer → List String

/-- Outcome of one execution of chat_page: the session state afterwards,
whether the load-the-Oracle error was shown, whether st.stop halted the
interaction, and every chain.stream invocation (input and chat history)
that was attempted. -/
structure ChatResult where
  state : SessionState
  errorShown : Bool
  halted : Bool
  modelCalls : List (String × Buffer)
deriving DecidableEq

/-- Truthiness of st.chat_input in the Python condition: None and the empty
string are falsy. -/
def inputTruthy : Option String → Bool
  | none => false
  | some u => !(u = "")

/-- chat_page from src/app.py: reject the turn when no chain is installed
(error plus st.stop, state untouched); otherwise, on truthy user input,
invoke chain.stream with the input and the prior buffer as chat history,
assemble the streamed chunks via st.write_stream, then append the user
message and the assembled response to the memory and store it back in
session state. -/
def chat_page (oracle : StreamOracle) (s : SessionState)
    (user_input : Option String) : ChatResult :=
  match s.chain with
  | none =>
    { state := s, errorShown := true, halted := true, modelCalls := [] }
  | some chain =>
    let memory := s.memory.getD MEMORY
    match user_input with
    | none =>
      { state := s, errorShown := false, halted := false, modelCalls := [] }
    | some u =>
      if u = "" then
        { state := s, errorShown := false, halted := false, modelCalls := [] }
      else
        let response := String.join (oracle.chunks chain u memory)
        let memory' := memory ++
          [{ type := Role.human, content := u }, { type := Role.ai, content := response }]
        { state := { s with memory := some memory' },
          errorShown := false, halted := false,
          modelCalls := [(u, memory)] }

/-- The clear action of the sidebar in src/app.py: store MEMORY (the fresh
empty buffer of the current rerun) under the memory key. -/
def clearConversation (s : SessionState) : SessionState :=
  { s with memory := some MEMORY }

/-- Iterated chat turns: run chat_page once per user input, threading the
session state. -/
def runTurns (oracle : StreamOracle) (s : SessionState) : List String → SessionState
  | [] => s
  | u :: rest => runTurns oracle (chat_page oracle s (some u)).state rest

/-- Strict user-assistant alternation of a buffer, as pairs. -/
def altPairs : Buffer → Bool
  | [] => true
  | { type := Role.human, content := _ } :: { type := Role.ai, content := _ } :: rest =>
      altPairs rest
  | _ => false

/-! Concrete fixtures used to instantiate the theorems below. -/

/-- Whether a file of the given name exists in the filesystem. -/
def existsFile (fs : FS) (name : String) : Bool :=
  fs.any (fun p => p.1 = name)

/-- A concrete extractor environment: the web fetcher returns three
fragments, transcripts exist only in Portuguese, and the path-based parsers
succeed exactly on files present in the filesystem. -/
def exWitness : Extractors where
  webLoad := fun _ => some [{ page_content := "A" }, { page_content := "B" }, { page_content := "C" }]
  transcripts := fun _ lang => if lang = "pt" then some [{ page_content := "fala" }] else none
  csvLoad := fun fs p => if existsFile fs p then some [{ page_content := "r1" }, { page_content := "r2" }] else none
  pdfLoad := fun fs p => if existsFile fs p then some [{ page_content := "p1" }, { page_content := "p2" }] else none
  txtLoad := fun fs p => if existsFile fs p then some [{ page_content := "t" }] else none

/-- A concrete extractor environment in which no video has any transcript. -/
def exNoTranscript : Extractors where
  webLoad := fun _ => none
  transcripts := fun _ _ => none
  csvLoad := fun _ _ => none
  pdfLoad := fun _ _ => none
  txtLoad := fun _ _ => none

/-- A concrete streaming oracle: every stream yields two chunks. -/
def wOracle : StreamOracle where
  chunks := fun _ _ _ => ["Hel", "lo"]

/-- A concrete chain. -/
def wChain : Chain :=
  buildChain ChatClientKind.groq "m" "k" "Txt" "doc"

/-- A concrete filesystem holding one file. -/
def wFS : FS := [("f", [])]

/-! Helper lemmas. -/

set_option maxRecDepth 10000

theorem intercalate_go_eq_specJoin (as : List String) :
    ∀ acc, String.intercalate.go acc "\n\n" as = specJoin (acc :: as) := by
  induction as with
  | nil => intro acc; rfl
  | cons a as ih =>
    intro acc
    rw [String.intercalate.go, ih]
    cases as with
    | nil => simp [specJoin, String.append_assoc]
    | cons b bs => simp [specJoin, String.append_assoc]

theorem intercalate_eq_specJoin (l : List String) :
    String.intercalate "\n\n" l = specJoin l := by
  cases l with
  | nil => rfl
  | cons f rest => rw [String.intercalate, intercalate_go_eq_specJoin]

theorem joinDocs_eq_specJoin (docs : List Document) :
    joinDocs docs = specJoin (docs.map Document.page_content) := by
  rw [joinDocs, intercalate_eq_specJoin]

/-! Claim theorems. -/

/-- Claim C1: for each of the five source types, when the underlying
extraction routine returns the fragment sequence F1..Fn, the loader returns
exactly the fragments joined with two newline characters, with no leading or
trailing separator (the specJoin formula). -/
theorem c1_loaders_join_fragments (ex : Extractors) (url video_id file_path : String)
    (fs : FS) (docs : List Document) :
    (ex.webLoad url = some docs →
      load_website ex url = some (specJoin (docs.map Document.page_content)))
  ∧ (youtubeLoaderLoad ex.transcripts (load_youtube_cfg video_id) = some docs →
      load_youtube ex video_id = some (specJoin (docs.map Document.page_content)))
  ∧ (ex.pdfLoad fs file_path = some docs →
      load_pdf ex fs file_path = some (specJoin (docs.map Document.page_content)))
  ∧ (ex.csvLoad fs file_path = some docs →
      load_csv ex fs file_path = some (specJoin (docs.map Document.page_content)))
  ∧ (ex.txtLoad fs file_path = some docs →
      load_txt ex fs file_path = some (specJoin (docs.map Document.page_content))) := by
  refine ⟨fun h => ?_, fun h => ?_, fun h => ?_, fun h => ?_, fun h => ?_⟩ <;>
    simp [load_website, load_youtube, load_pdf, load_csv, load_txt, h, joinDocs_eq_specJoin]

/-- Witness for C1 at concrete inputs: three web fragments join to
A-blank-B-blank-C, a single fragment is returned unseparated, and the
path-based loaders join their fragments likewise. -/
theorem c1_loaders_join_fragments_witness :
    load_website exWitness "u" = some "A\n\nB\n\nC"
  ∧ load_youtube exWitness "v" = some "fala"
  ∧ load_pdf exWitness wFS "f" = some "p1\n\np2"
  ∧ load_csv exWitness wFS "f" = some "r1\n\nr2"
  ∧ load_txt exWitness wFS "f" = some "t" := by
  have hweb := (c1_loaders_join_fragments exWitness "u" "v" "f" wFS
    [{ page_content := "A" }, { page_content := "B" }, { page_content := "C" }]).1 rfl
  have hyt := (c1_loaders_join_fragments exWitness "u" "v" "f" wFS
    [{ page_content := "fala" }]).2.1 rfl
  have hpdf := (c1_loaders_join_fragments exWitness "u" "v" "f" wFS
    [{ page_content := "p1" }, { page_content := "p2" }]).2.2.1 rfl
  have hcsv := (c1_loaders_join_fragments exWitness "u" "v" "f" wFS
    [{ page_content := "r1" }, { page_content := "r2" }]).2.2.2.1 rfl
  have htxt := (c1_loaders_join_fragments exWitness "u" "v" "f" wFS
    [{ page_content := "t" }]).2.2.2.2 rfl
  exact ⟨hweb, hyt, hpdf, hcsv, htxt⟩

theorem chat_page_turn (oracle : StreamOracle) (s : SessionState) (c : Chain)
    (u : String) (hc : s.chain = some c) (hu : u ≠ "") :
    chat_page oracle s (some u) =
      { state := { s with memory := some (bufferOf s ++
          [{ type := Role.human, content := u },
           { type := Role.ai, content := String.join (oracle.chunks c u (bufferOf s)) }]) },
        errorShown := false, halted := false,
        modelCalls := [(u, bufferOf s)] } := by
  unfold chat_page
  rw [hc]
  simp [bufferOf, hu]

/-- Claim C2: when no chain is installed, a chat turn is rejected: the error
is shown, the interaction halts, no model call is attempted, and the session
state, in particular the conversation buffer, is unchanged. -/
theorem c2_uninitialized_rejects_turn (oracle : StreamOracle) (s : SessionState)
    (user_input : Option String) (hc : s.chain = none) :
    chat_page oracle s user_input =
      { state := s, errorShown := true, halted := true, modelCalls := [] } := by
  unfold chat_page
  rw [hc]

/-- Witness for C2: a chain-free state with a nonempty buffer and a pending
user input is returned untouched, with the error flag and the halt flag
set and no model call recorded. -/
theorem c2_uninitialized_rejects_turn_witness :
    chat_page wOracle { chain := none, memory := some [{ type := Role.human, content := "old" }] }
        (some "hi") =
      { state := { chain := none, memory := some [{ type := Role.human, content := "old" }] },
        errorShown := true, halted := true, modelCalls := [] } :=
  c2_uninitialized_rejects_turn wOracle
    { chain := none, memory := some [{ type := Role.human, content := "old" }] } (some "hi") rfl

theorem runTurns_appends_pairs (oracle : StreamOracle) (inputs : List String) :
    ∀ (s : SessionState) (c : Chain), s.chain = some c → (∀ u ∈ inputs, u ≠ "") →
    ∃ ext : Buffer, bufferOf (runTurns oracle s inputs) = bufferOf s ++ ext
      ∧ ext.length = 2 * inputs.length ∧ altPairs ext = true := by
  induction inputs with
  | nil =>
    intro s c _ _
    exact ⟨[], by simp [runTurns], rfl, rfl⟩
  | cons u rest ih =>
    intro s c hc hne
    have hu : u ≠ "" := hne u (List.mem_cons_self u rest)
    have hstep := chat_page_turn oracle s c u hc hu
    have hrest : ∀ v ∈ rest, v ≠ "" := fun v hv => hne v (List.mem_cons_of_mem u hv)
    set s' := (chat_page oracle s (some u)).state with hs'
    have hc' : s'.chain = some c := by rw [hs', hstep]; exact hc
    obtain ⟨ext, he, hl, ha⟩ := ih s' c hc' hrest
    have hb' : bufferOf s' = bufferOf s ++
        [{ type := Role.human, content := u },
         { type := Role.ai, content := String.join (oracle.chunks c u (bufferOf s)) }] := by
      rw [hs', hstep]; simp [bufferOf]
    refine ⟨{ type := Role.human, content := u } ::
        { type := Role.ai, content := String.join (oracle.chunks c u (bufferOf s)) } :: ext,
      ?_, ?_, ?_⟩
    · rw [runTurns, he, hb']; simp
    · simp [hl]; ring
    · simpa [altPairs] using ha

/-- Claim C3: starting from an empty conversation buffer with a chain
installed, after N completed chat turns the buffer holds exactly 2N messages
in strict alternation user, assistant, user, assistant and so on. -/
theorem c3_buffer_alternates (oracle : StreamOracle) (s : SessionState) (c : Chain)
    (inputs : List String) (hc : s.chain = some c) (hb : bufferOf s = [])
    (hne : ∀ u ∈ inputs, u ≠ "") :
    (bufferOf (runTurns oracle s inputs)).length = 2 * inputs.length
  ∧ altPairs (bufferOf (runTurns oracle s inputs)) = true := by
  obtain ⟨ext, he, hl, ha⟩ := runTurns_appends_pairs oracle inputs s c hc hne
  rw [he, hb]
  simpa using ⟨hl, ha⟩

/-- Witness for C3: two turns from the empty buffer leave four messages in
user-assistant alternation. -/
theorem c3_buffer_alternates_witness :
    (bufferOf (runTurns wOracle { chain := some wChain, memory := none } ["a", "b"])).length = 2 * 2
  ∧ altPairs (bufferOf (runTurns wOracle { chain := some wChain, memory := none } ["a", "b"])) = true :=
  c3_buffer_alternates wOracle { chain := some wChain, memory := none } wChain ["a", "b"]
    rfl rfl (by decide)

/-- Claim C7: with a chain installed, a turn with user text U invokes the
chain exactly once, with input U and chat history exactly the prior buffer
(U not included), and afterwards the buffer is the prior buffer with the
user message and then the assembled streamed response appended. -/
theorem c7_turn_invocation_and_append (oracle : StreamOracle) (s : SessionState)
    (c : Chain) (u : String) (hc : s.chain = some c) (hu : u ≠ "") :
    (chat_page oracle s (some u)).modelCalls = [(u, bufferOf s)]
  ∧ bufferOf (chat_page oracle s (some u)).state =
      bufferOf s ++
        [{ type := Role.human, content := u },
         { type := Role.ai, content := String.join (oracle.chunks c u (bufferOf s)) }] := by
  rw [chat_page_turn oracle s c u hc hu]
  exact ⟨rfl, by simp [bufferOf]⟩

/-- Witness for C7: on a state with one prior message, the turn Q invokes
the chain with history exactly that single message, and the buffer gains the
user message and the assembled response Hello, in that order. -/
theorem c7_turn_invocation_and_append_witness :
    (chat_page wOracle
        { chain := some wChain, memory := some [{ type := Role.human, content := "old" }] }
        (some "Q")).modelCalls = [("Q", [{ type := Role.human, content := "old" }])]
  ∧ bufferOf (chat_page wOracle
        { chain := some wChain, memory := some [{ type := Role.human, content := "old" }] }
        (some "Q")).state =
      [{ type := Role.human, content := "old" },
       { type := Role.human, content := "Q" },
       { type := Role.ai, content := "Hello" }] := by
  have h := c7_turn_invocation_and_append wOracle
    { chain := some wChain, memory := some [{ type := Role.human, content := "old" }] }
    wChain "Q" rfl (by decide)
  exact ⟨h.1, h.2⟩

/-- Claim C4: for every prior session state, the clear action leaves the
conversation buffer empty (it stores the fresh MEMORY of the current rerun)
and does not touch the installed chain. -/
theorem c4_clear_resets_buffer_keeps_chain (s : SessionState) :
    bufferOf (clearConversation s) = []
  ∧ (clearConversation s).memory = some MEMORY
  ∧ (clearConversation s).chain = s.chain := by
  refine ⟨?_, rfl, rfl⟩
  simp [clearConversation, bufferOf, MEMORY]

/-- Claim C5: re-running initialization on an existing session state
replaces the chain entry with the newly built chain (from the given
provider constructor, model, credential and document) and leaves the
conversation buffer entry untouched. -/
theorem c5_reinit_replaces_chain_keeps_memory (ex : Extractors)
    (provider model api_key file_type : String) (file : FileInput) (fs fs' : FS)
    (s : SessionState) (document : String) (cfg : ProviderCfg)
    (hload : load_files ex file_type file fs = (Except.ok document, fs'))
    (hcfg : MODEL_CONFIG provider = some cfg) :
    ∃ s', load_model ex provider model api_key file_type file fs s = some (s', fs')
      ∧ s'.chain = some (buildChain cfg.chat model api_key file_type document)
      ∧ s'.memory = s.memory := by
  refine ⟨{ s with chain := some (buildChain cfg.chat model api_key file_type document) }, ?_, rfl, rfl⟩
  unfold load_model
  rw [hload, hcfg]

/-- Witness for C5: initializing with Groq over a loaded Txt upload, on a
state that already has a chain and a two-message buffer, installs the new
chain and keeps the buffer. -/
theorem c5_reinit_replaces_chain_keeps_memory_witness :
    load_files exWitness "Txt" (FileInput.upload [1]) [] = (Except.ok "t", [("tmp0.txt", [1])])
  ∧ MODEL_CONFIG "Groq" =
      some { models := ["llama-3.1-70b-versatile", "gemma2-9b-it", "mixtral-8x7b-32768"],
             chat := ChatClientKind.groq }
  ∧ ∃ s', load_model exWitness "Groq" "gemma2-9b-it" "key" "Txt" (FileInput.upload [1]) []
        { chain := some wChain,
          memory := some [{ type := Role.human, content := "q" },
                          { type := Role.ai, content := "a" }] } = some (s', [("tmp0.txt", [1])])
      ∧ s'.chain = some (buildChain ChatClientKind.groq "gemma2-9b-it" "key" "Txt" "t")
      ∧ s'.memory = some [{ type := Role.human, content := "q" },
                          { type := Role.ai, content := "a" }] := by
  refine ⟨rfl, rfl, ?_⟩
  exact c5_reinit_replaces_chain_keeps_memory exWitness "Groq" "gemma2-9b-it" "key" "Txt"
    (FileInput.upload [1]) [] [("tmp0.txt", [1])]
    { chain := some wChain,
      memory := some [{ type := Role.human, content := "q" },
                      { type := Role.ai, content := "a" }] } "t"
    { models := ["llama-3.1-70b-versatile", "gemma2-9b-it", "mixtral-8x7b-32768"],
      chat := ChatClientKind.groq }
    rfl rfl

theorem sysTemplate_decomp :
    sysTemplate.data =
      sysPre.data ++ '\x7b' :: '\x7d' :: (sysMid.data ++ '\x7b' :: '\x7d' :: sysPost.data) := by
  decide

theorem no_brace_sysPre : '\x7b' ∉ sysPre.data := by decide

theorem no_brace_sysMid : '\x7b' ∉ sysMid.data := by decide

theorem no_brace_sysPost : '\x7b' ∉ sysPost.data := by decide

theorem formatChars_hole (rest : List Char) (arg : String) (args : List String) :
    formatChars ('\x7b' :: '\x7d' :: rest) (arg :: args) = arg.data ++ formatChars rest args := by
  simp [formatChars]

theorem formatChars_append (l : List Char) (h : '\x7b' ∉ l) :
    ∀ (rest : List Char) (args : List String),
      formatChars (l ++ rest) args = l ++ formatChars rest args := by
  induction l with
  | nil => intro rest args; rfl
  | cons c l' ih =>
    intro rest args
    have hc : c ≠ '\x7b' := fun hh => h (hh ▸ List.mem_cons_self c l')
    have h' : '\x7b' ∉ l' := fun hm => h (List.mem_cons_of_mem c hm)
    cases hl : l' ++ rest with
    | nil =>
      rcases List.append_eq_nil.mp hl with ⟨h1, h2⟩
      subst h1; subst h2
      rfl
    | cons b r2 =>
      have hstep : formatChars (c :: (l' ++ rest)) args = c :: formatChars (l' ++ rest) args := by
        rw [hl]
        simp only [formatChars]
        rw [if_neg]
        simp [hc]
      rw [List.cons_append, hstep, ih h' rest args]
      rfl

theorem systemMessage_decomp (ft doc : String) :
    systemMessage ft doc = sysPre ++ ft ++ sysMid ++ doc ++ sysPost := by
  apply String.ext
  show (pyFormat sysTemplate [ft, doc]).data = _
  rw [pyFormat]
  rw [sysTemplate_decomp]
  rw [formatChars_append sysPre.data no_brace_sysPre]
  rw [formatChars_hole]
  rw [formatChars_append sysMid.data no_brace_sysMid]
  rw [formatChars_hole]
  have hpost : formatChars sysPost.data [] = sysPost.data := by
    have h2 := formatChars_append sysPost.data no_brace_sysPost [] []
    simpa using h2
  rw [hpost]
  simp [String.data_append]

/-- Claim C6: initialization builds the fixed instruction string embedding
the type tag and the document text verbatim between the literal template
parts; the template part after the document contains the
dollar-substitution directive and the bot-challenge reload directive; and
the chain installed by load_model combines the instruction, the chat
history placeholder and the user input placeholder, in that order, bound to
the client built from the provider constructor, the model identifier and
the credential. -/
theorem c6_instruction_and_template (ex : Extractors)
    (provider model api_key file_type : String) (file : FileInput) (fs fs' : FS)
    (s : SessionState) (document : String) (cfg : ProviderCfg)
    (hload : load_files ex file_type file fs = (Except.ok document, fs'))
    (hcfg : MODEL_CONFIG provider = some cfg) :
    (∃ s', load_model ex provider model api_key file_type file fs s = some (s', fs')
      ∧ s'.chain = some
          { template := [("system", sysPre ++ file_type ++ sysMid ++ document ++ sysPost),
                         ("placeholder", "\x7bchat_history\x7d"),
                         ("user", "\x7binput\x7d")],
            chat := { kind := cfg.chat, model := model, api_key := api_key } })
  ∧ (∃ x y, sysPost = x ++ dollarDirective ++ y)
  ∧ (∃ x y, sysPost = x ++ jsDirective ++ y) := by
  refine ⟨?_, ?_, ?_⟩
  · refine ⟨{ s with chain := some (buildChain cfg.chat model api_key file_type document) }, ?_, ?_⟩
    · unfold load_model
      rw [hload, hcfg]
    · show some (buildChain cfg.chat model api_key file_type document) = _
      rw [buildChain, systemMessage_decomp]
  · exact ⟨"\n    ####\n\n    Use the provided information as a basis for your responses.\n\n    ",
      "\n\n    If the document contains something like \"Just a moment...Enable JavaScript and cookies to continue\"\n    suggest the user reload the Oracle!",
      by decide⟩
  · exact ⟨"\n    ####\n\n    Use the provided information as a basis for your responses.\n\n    Whenever you encounter $ in your output, replace it with S.\n\n    ",
      "",
      by decide⟩

/-- Witness for C6: initializing with OpenAI over a Txt upload whose
extracted text is t installs a chain whose system message is the template
parts around the type tag Txt and the text t, followed by the two
placeholders, bound to the OpenAI client. -/
theorem c6_instruction_and_template_witness :
    load_files exWitness "Txt" (FileInput.upload [2]) [] = (Except.ok "t", [("tmp0.txt", [2])])
  ∧ MODEL_CONFIG "OpenAI" =
      some { models := ["gpt-4o-mini", "gpt-4o", "o1-preview", "o1-mini"],
             chat := ChatClientKind.openai }
  ∧ ((∃ s', load_model exWitness "OpenAI" "gpt-4o" "k2" "Txt" (FileInput.upload [2]) []
          { chain := none, memory := none } = some (s', [("tmp0.txt", [2])])
      ∧ s'.chain = some
          { template := [("system", sysPre ++ "Txt" ++ sysMid ++ "t" ++ sysPost),
                         ("placeholder", "\x7bchat_history\x7d"),
                         ("user", "\x7binput\x7d")],
            chat := { kind := ChatClientKind.openai, model := "gpt-4o", api_key := "k2" } })
    ∧ (∃ x y, sysPost = x ++ dollarDirective ++ y)
    ∧ (∃ x y, sysPost = x ++ jsDirective ++ y)) := by
  refine ⟨rfl, rfl, ?_⟩
  exact c6_instruction_and_template exWitness "OpenAI" "gpt-4o" "k2" "Txt"
    (FileInput.upload [2]) [] [("tmp0.txt", [2])] { chain := none, memory := none } "t"
    { models := ["gpt-4o-mini", "gpt-4o", "o1-preview", "o1-mini"],
      chat := ChatClientKind.openai }
    rfl rfl

/-- Counterexample to C8 as stated: uploading a Pdf through load_files on an
empty filesystem leaves the transient file in existence when load_files
returns, so it is not the case that the file no longer exists. -/
theorem c8_counterexample_temp_file_survives :
    ¬ (existsFile (load_files exWitness "Pdf" (FileInput.upload [0]) []).2
        (freshTempName [] ".pdf") = false) := by
  decide

/-- Claim C8 as amended: for every byte-based source type, the uploaded
content is written to a transient file before extraction, and that file is
created with deletion disabled and never removed, so it still exists in the
filesystem when load_files returns. -/
theorem c8_amended_temp_file_persists (ex : Extractors) (file_type : String)
    (content : Bytes) (fs : FS) (h : file_type ∈ ["Pdf", "Csv", "Txt"]) :
    ∃ suffix,
      (load_files ex file_type (FileInput.upload content) fs).2
        = fs ++ [(freshTempName fs suffix, content)]
    ∧ existsFile (load_files ex file_type (FileInput.upload content) fs).2
        (freshTempName fs suffix) = true := by
  have hex : ∀ (fs2 : FS) (n : String) (c2 : Bytes), existsFile (fs2 ++ [(n, c2)]) n = true := by
    intro fs2 n c2
    simp [existsFile]
  simp only [List.mem_cons, List.not_mem_nil, or_false] at h
  rcases h with h | h | h <;> subst h
  · have hfs : (load_files ex "Pdf" (FileInput.upload content) fs).2
        = fs ++ [(freshTempName fs ".pdf", content)] := by
      unfold load_files loadViaTempFile
      cases hp : load_pdf ex (fs ++ [(freshTempName fs ".pdf", content)]) (freshTempName fs ".pdf") <;>
        simp [hp]
    exact ⟨".pdf", hfs, by rw [hfs]; exact hex fs (freshTempName fs ".pdf") content⟩
  · have hfs : (load_files ex "Csv" (FileInput.upload content) fs).2
        = fs ++ [(freshTempName fs ".csv", content)] := by
      unfold load_files loadViaTempFile
      cases hp : load_csv ex (fs ++ [(freshTempName fs ".csv", content)]) (freshTempName fs ".csv") <;>
        simp [hp]
    exact ⟨".csv", hfs, by rw [hfs]; exact hex fs (freshTempName fs ".csv") content⟩
  · have hfs : (load_files ex "Txt" (FileInput.upload content) fs).2
        = fs ++ [(freshTempName fs ".txt", content)] := by
      unfold load_files loadViaTempFile
      cases hp : load_txt ex (fs ++ [(freshTempName fs ".txt", content)]) (freshTempName fs ".txt") <;>
        simp [hp]
    exact ⟨".txt", hfs, by rw [hfs]; exact hex fs (freshTempName fs ".txt") content⟩

/-- Witness for the amended C8: a Csv upload on the empty filesystem leaves
exactly the transient file tmp0.csv holding the uploaded bytes. -/
theorem c8_amended_temp_file_persists_witness :
    ("Csv" : String) ∈ ["Pdf", "Csv", "Txt"]
  ∧ ∃ suffix,
      (load_files exWitness "Csv" (FileInput.upload [7]) []).2
        = [] ++ [(freshTempName [] suffix, [7])]
    ∧ existsFile (load_files exWitness "Csv" (FileInput.upload [7]) []).2
        (freshTempName [] suffix) = true :=
  ⟨by decide, c8_amended_temp_file_persists exWitness "Csv" [7] [] (by decide)⟩

/-- Claim C9: load_files raises the unbound-local error exactly when the
file_type tag is not one of the five valid tags, and a defined (ok) result
implies the tag is valid; with a valid tag the unbound-local branch is
unreachable. -/
theorem c9_unbound_local_iff_invalid_tag (ex : Extractors) (file : FileInput)
    (fs : FS) (file_type : String) :
    ((load_files ex file_type file fs).1 = Except.error LoadErr.unboundLocal
      ↔ file_type ∉ VALID_FILE_TYPES)
  ∧ (∀ document, (load_files ex file_type file fs).1 = Except.ok document →
      file_type ∈ VALID_FILE_TYPES) := by
  have hmain : (load_files ex file_type file fs).1 = Except.error LoadErr.unboundLocal
      ↔ file_type ∉ VALID_FILE_TYPES := by
    unfold load_files VALID_FILE_TYPES
    split_ifs with h1 h2 h3 h4 h5
    · subst h1
      cases file with
      | url u => cases hw : load_website ex u <;> simp [hw]
      | upload _ => simp
    · subst h2
      cases file with
      | url u => cases hw : load_youtube ex u <;> simp [hw]
      | upload _ => simp [h1]
    · subst h3
      cases file with
      | url _ => simp [h1, h2]
      | upload content =>
        simp only [loadViaTempFile]
        cases hw : load_pdf ex (fs ++ [(freshTempName fs ".pdf", content)]) (freshTempName fs ".pdf") <;>
          simp [hw, h1, h2]
    · subst h4
      cases file with
      | url _ => simp [h1, h2, h3]
      | upload content =>
        simp only [loadViaTempFile]
        cases hw : load_csv ex (fs ++ [(freshTempName fs ".csv", content)]) (freshTempName fs ".csv") <;>
          simp [hw, h1, h2, h3]
    · subst h5
      cases file with
      | url _ => simp [h1, h2, h3, h4]
      | upload content =>
        simp only [loadViaTempFile]
        cases hw : load_txt ex (fs ++ [(freshTempName fs ".txt", content)]) (freshTempName fs ".txt") <;>
          simp [hw, h1, h2, h3, h4]
    · simp [h1, h2, h3, h4, h5]
  refine ⟨hmain, fun document hok => ?_⟩
  by_contra hmem
  rw [← hmain] at hmem
  rw [hok] at hmem
  exact Except.noConfusion hmem

/-- Claim C10: load_youtube configures the external transcript loader with
the Portuguese language list only and video metadata disabled, so when no
Portuguese transcript exists for a video, load_youtube yields no document. -/
theorem c10_youtube_portuguese_only (ex : Extractors) (video_id : String)
    (h : ex.transcripts video_id "pt" = none) :
    (load_youtube_cfg video_id).language = ["pt"]
  ∧ (load_youtube_cfg video_id).add_video_info = false
  ∧ load_youtube ex video_id = none := by
  refine ⟨rfl, rfl, ?_⟩
  unfold load_youtube youtubeLoaderLoad load_youtube_cfg
  simp [h]

/-- Witness for C10: in an environment with no transcripts at all, loading
a video yields nothing, and the constructed loader configuration is
Portuguese-only with metadata disabled. -/
theorem c10_youtube_portuguese_only_witness :
    exNoTranscript.transcripts "vid" "pt" = none
  ∧ ((load_youtube_cfg "vid").language = ["pt"]
      ∧ (load_youtube_cfg "vid").add_video_info = false
      ∧ load_youtube exNoTranscript "vid" = none) :=
  ⟨rfl, c10_youtube_portuguese_only exNoTranscript "vid" rfl⟩

end OracleChat
